import Mathlib

/-
  Verification development for the screen-detection web-UI testing agent.

  Shallow embedding of the decision core:
   - output-text normalization            (src/state/normalize.rs)
   - canonical screen states and the
     semantic diff engine                 (src/canonical/canonical_model.rs, src/canonical/diff.rs)
   - agent memory, budgets, the decision
     gate and the agent state machine     (src/agent/agent_model.rs, src/agent/budget.rs,
                                           src/agent/agent.rs)
   - the deterministic rule-based policy  (src/agent/ai_model.rs)

  Modelling conventions:
   - Rust u32 / usize counters are Nat; saturating_sub is Nat subtraction
     (which is already truncated at zero).
   - Rust f32 confidence values and the 0.6 / 0.65 / 0.9 literals are
     modelled as exact rationals; the f32 comparisons in the source involve
     only small constants, and the rational model coincides with the f32
     semantics except at astronomically large inputs.
   - Rust BTreeMap / BTreeSet values are modelled as association lists /
     sorted deduplicated lists; Rust str::len() is UTF-8 byte size and is
     modelled with String.utf8ByteSize.
   - Char.isAlpha / Char.isWhitespace / Char.toLower are the ASCII
     approximations of Rust's Unicode-aware classifiers; they agree on all
     ASCII text and on the concrete inputs used below.
-/

namespace ScreenDet

/-! ## String helpers

Rust str operations are modelled on the character list of the string
(String.data), so that every definition is structurally recursive and
kernel-computable. -/

def strStartsWith : List Char → List Char → Bool
  | _, [] => true
  | [], _ :: _ => false
  | c :: cs, d :: ds => c == d && strStartsWith cs ds

def containsSub : List Char → List Char → Bool
  | [], sub => sub.isEmpty
  | s@(_ :: rest), sub => strStartsWith s sub || containsSub rest sub

/-- Rust str::contains with a string pattern. -/
def containsStr (s sub : String) : Bool :=
  containsSub s.data sub.data

/-- Rust str::trim on the character list: strip whitespace from both ends. -/
def trimChars (cs : List Char) : List Char :=
  ((cs.dropWhile Char.isWhitespace).reverse.dropWhile Char.isWhitespace).reverse

/-- Rust str::to_lowercase (ASCII fragment). -/
def toLowerStr (s : String) : String :=
  String.mk (s.data.map Char.toLower)

/-- Rust str::len(): the UTF-8 byte length. -/
def utf8Len (cs : List Char) : Nat :=
  (cs.map Char.utf8Size).sum

/-- Rust str::split_whitespace on the character list: split on whitespace
runs, dropping empty pieces. -/
def wordsOf (cs : List Char) : List (List Char) :=
  (cs.splitOnP (fun c => c.isWhitespace)).filter (fun w => !w.isEmpty)

/-! ## Output text normalization (src/state/normalize.rs, normalize_output_text) -/

/-- The whitespace-collapsed, lower-cased form of the trimmed raw text
(the value the source names normalized), as a character list. -/
def collapsedChars (raw : String) : List Char :=
  (List.intercalate [' '] (wordsOf (trimChars raw.data))).map Char.toLower

/-- The whitespace-collapsed, lower-cased form of the trimmed raw text, as a
string. -/
def collapse_lower (raw : String) : String :=
  String.mk (collapsedChars raw)

/-- Embedding of normalize_output_text (src/state/normalize.rs lines 3-42).
The non-alpha ratio check `count as f32 / text.len().max(1) as f32 > 0.6` is
modelled as the exact rational comparison 5 * count > 3 * max len 1, where
len is the UTF-8 byte length of the trimmed text (Rust str::len()); the final
length check `normalized.len() < 3` is likewise on UTF-8 bytes. -/
def normalize_output_text (raw : String) : Option String :=
  let text := trimChars raw.data
  if text.isEmpty then none
  else if containsSub text "function(".data || containsSub text "var ".data ||
          containsSub text "window.".data || containsSub text "document.".data then none
  else
    let nonAlpha := (text.filter (fun c => !c.isAlpha && !c.isWhitespace)).length
    if 5 * nonAlpha > 3 * (max (utf8Len text) 1) then none
    else
      let normalized := (List.intercalate [' '] (wordsOf text)).map Char.toLower
      if utf8Len normalized < 3 then none
      else some (String.mk normalized)

/-- The rejection condition exactly as the claim words it, with the two length
measurements taken in characters ("more than 60% non-alphabetic/non-space
characters", "shorter than 3 characters"). -/
def normalize_rejects_chars (raw : String) : Bool :=
  let text := trimChars raw.data
  text.isEmpty ||
  containsSub text "function(".data || containsSub text "var ".data ||
  containsSub text "window.".data || containsSub text "document.".data ||
  decide (5 * (text.filter (fun c => !c.isAlpha && !c.isWhitespace)).length >
    3 * (max text.length 1)) ||
  decide ((collapsedChars raw).length < 3)

/-- The rejection condition with both length measurements taken in UTF-8 bytes,
matching Rust str::len() as the source uses it. -/
def normalize_rejects_bytes (raw : String) : Bool :=
  let text := trimChars raw.data
  text.isEmpty ||
  containsSub text "function(".data || containsSub text "var ".data ||
  containsSub text "window.".data || containsSub text "document.".data ||
  decide (5 * (text.filter (fun c => !c.isAlpha && !c.isWhitespace)).length >
    3 * (max (utf8Len text) 1)) ||
  decide (utf8Len (collapsedChars raw) < 3)

/-! ## Screen data model (src/screen/screen_model.rs, src/state/state_model.rs)

ScreenElement carries the optional structural hints (tag, role, input-subtype)
that agent.rs and ai_model.rs read (spec section 3). -/

inductive ElementKind
  | Input
  | Action
  | Output
deriving DecidableEq

structure ScreenElement where
  label : Option String
  kind : ElementKind
  tag : Option String
  role : Option String
  input_type : Option String
deriving DecidableEq

inductive IntentSignal
  | Keyword (s : String)
  | InputType (s : String)
  | ActionLabel (s : String)
  | Structure (s : String)
deriving DecidableEq

structure FormIntent where
  label : String
  confidence : ℚ
  signals : List IntentSignal
deriving DecidableEq

structure Form where
  id : String
  inputs : List ScreenElement
  actions : List ScreenElement
  primary_action : Option ScreenElement
  intent : Option FormIntent
deriving DecidableEq

inductive OutputRegion
  | Header
  | Main
  | Results
  | Footer
  | Modal
  | Unknown
deriving DecidableEq

inductive Volatility
  | Stable
  | Volatile
deriving DecidableEq

structure IdentifiedElement where
  id : String
  element : ScreenElement
  scope : String
  region : OutputRegion
  volatility : Volatility
deriving DecidableEq

/-- src/state/state_model.rs ScreenState; the identities HashMap is modelled
as an association list. -/
structure ScreenState where
  url : Option String
  title : String
  forms : List Form
  standalone_actions : List ScreenElement
  outputs : List ScreenElement
  identities : List (String × IdentifiedElement)
deriving DecidableEq

/-! ## Canonical model (src/canonical/canonical_model.rs) -/

structure CanonicalElement where
  id : String
  kind : ElementKind
  label : Option String
  scope : String
deriving DecidableEq

structure CanonicalForm where
  id : String
  inputs : List String
  actions : List String
  primary_action : Option String
  intent : Option FormIntent
deriving DecidableEq

/-- CanonicalScreenState; the two BTreeMaps are modelled as association lists
(looked up with List.lookup, exactly how the diff engine reads them). -/
structure CanonicalScreenState where
  url : String
  title : String
  elements : List (String × CanonicalElement)
  forms : List (String × CanonicalForm)
  standalone_actions : List String
  outputs : List String
deriving DecidableEq

/-! ## Semantic diff engine (src/canonical/diff.rs) -/

structure FormChange where
  form_id : String
  inputs_added : List String
  inputs_removed : List String
  actions_added : List String
  actions_removed : List String
  primary_action_changed : Bool
  intent_changed : Bool
deriving DecidableEq

structure FormDiff where
  added : List String
  removed : List String
  changed : List FormChange
deriving DecidableEq

structure ActionDiff where
  added : List String
  removed : List String
deriving DecidableEq

structure OutputDiff where
  added : List String
  removed : List String
deriving DecidableEq

inductive SemanticSignal
  | ScreenLoaded
  | NavigationOccurred
  | FormSubmitted (form_id : String)
  | ResultsAppeared
  | ErrorAppeared
  | NoOp
deriving DecidableEq

/-- Lexicographic comparison of character lists; on UTF-8 strings this is the
byte-wise order a Rust BTreeSet of Strings uses (UTF-8 preserves code-point
order). -/
def charListLe : List Char → List Char → Bool
  | [], _ => true
  | _ :: _, [] => false
  | c :: cs, d :: ds => if c = d then charListLe cs ds else decide (c < d)

/-- Ascending deduplicated key order, as iterating a Rust BTreeSet yields. -/
def sortDedup (l : List String) : List String :=
  List.insertionSort (fun a b => charListLe a.data b.data = true) l.dedup

/-- diff_sets (src/canonical/diff.rs lines 63-72): ordered-set difference in
both directions. -/
def diff_sets (before after : List String) : List String × List String :=
  ((sortDedup after).filter (fun x => decide (x ∉ before)),
   (sortDedup before).filter (fun x => decide (x ∉ after)))

/-- The per-form change record built inside diff_forms for a form id present
in both states (src/canonical/diff.rs lines 84-113). -/
def form_change (fid : String) (b a : CanonicalForm) : Option FormChange :=
  let inputs_diff := diff_sets b.inputs a.inputs
  let actions_diff := diff_sets b.actions a.actions
  let primary_action_changed := decide (b.primary_action ≠ a.primary_action)
  let intent_changed := decide (b.intent ≠ a.intent)
  if inputs_diff.1 ≠ [] ∨ inputs_diff.2 ≠ [] ∨ actions_diff.1 ≠ [] ∨ actions_diff.2 ≠ [] ∨
      primary_action_changed = true ∨ intent_changed = true then
    some { form_id := fid,
           inputs_added := inputs_diff.1, inputs_removed := inputs_diff.2,
           actions_added := actions_diff.1, actions_removed := actions_diff.2,
           primary_action_changed := primary_action_changed,
           intent_changed := intent_changed }
  else none

def diff_forms (before after : CanonicalScreenState) : FormDiff :=
  let before_ids := sortDedup (before.forms.map Prod.fst)
  let after_ids := sortDedup (after.forms.map Prod.fst)
  { added := after_ids.filter (fun x => decide (x ∉ before_ids)),
    removed := before_ids.filter (fun x => decide (x ∉ after_ids)),
    changed := (before_ids.filter (fun x => decide (x ∈ after_ids))).filterMap (fun fid =>
      match List.lookup fid before.forms, List.lookup fid after.forms with
      | some b, some a => form_change fid b a
      | _, _ => none) }

def diff_actions (before after : CanonicalScreenState) : ActionDiff :=
  let d := diff_sets before.standalone_actions after.standalone_actions
  { added := d.1, removed := d.2 }

def diff_outputs (before after : CanonicalScreenState) : OutputDiff :=
  let d := diff_sets before.outputs after.outputs
  { added := d.1, removed := d.2 }

/-- output_is_error (src/canonical/diff.rs lines 242-264). -/
def output_is_error (id : String) (state : CanonicalScreenState) : Bool :=
  match List.lookup id state.elements with
  | none => false
  | some el =>
    if el.kind ≠ ElementKind.Output then false
    else
      let text := (el.label.map toLowerStr).getD ""
      containsStr text "error" || containsStr text "failed" || containsStr text "invalid" ||
      containsStr text "unable" || containsStr text "not found"

/-- derive_signals (src/canonical/diff.rs lines 134-182); the pushes are
modelled as list appends in the source order. -/
def derive_signals (forms : FormDiff) (_acts : ActionDiff) (outputs : OutputDiff)
    (_before after : CanonicalScreenState) (is_initial : Bool) : List SemanticSignal :=
  if is_initial then [SemanticSignal.ScreenLoaded]
  else
    let form_disappeared := !forms.removed.isEmpty
    let outputs_appeared := !outputs.added.isEmpty
    let s1 := if form_disappeared && !outputs_appeared
      then [SemanticSignal.NavigationOccurred] else []
    let s2 := if form_disappeared && outputs_appeared
      then forms.removed.map (fun fid => SemanticSignal.FormSubmitted fid) else []
    let error_added := outputs.added.any (fun id => output_is_error id after)
    let s3 := if error_added then [SemanticSignal.ErrorAppeared]
      else if outputs_appeared then [SemanticSignal.ResultsAppeared] else []
    let signals := s1 ++ s2 ++ s3
    if signals.isEmpty then [SemanticSignal.NoOp] else signals

structure SemanticStateDiff where
  forms : FormDiff
  standalone_actions : ActionDiff
  outputs : OutputDiff
  signals : List SemanticSignal
deriving DecidableEq

/-- semantic_diff (src/canonical/diff.rs lines 277-301). -/
def semantic_diff (before after : CanonicalScreenState) (is_initial : Bool) :
    SemanticStateDiff :=
  let forms := diff_forms before after
  let standalone_actions := diff_actions before after
  let outputs := diff_outputs before after
  let signals := derive_signals forms standalone_actions outputs before after is_initial
  { forms := forms, standalone_actions := standalone_actions,
    outputs := outputs, signals := signals }

/-! ## Agent data model (src/agent/agent_model.rs) -/

def MIN_CONFIDENCE : ℚ := mkRat 65 100
def MAX_RETRIES : Nat := 3
def MAX_LOOP_REPEATS : Nat := 2
def MAX_THINK_STEPS : Nat := 5

inductive AgentState
  | Observe
  | Evaluate
  | Think
  | Act
  | Stop
deriving DecidableEq

/-- AgentAction; structural equality (Rust derive PartialEq) is the derived
DecidableEq. NavigateTo appears in the executor match arms in
src/agent/agent.rs. -/
inductive AgentAction
  | FillInput (form_id input_label value : String) (identity : Option String)
  | SubmitForm (form_id action_label : String) (identity : Option String)
  | FormSubmitted (form_id : String)
  | FillAndSubmitForm (form_id : String) (values : List (String × String))
      (submit_label : Option String)
  | ClickAction (label : String) (identity : Option String)
  | Wait (reason : String)
  | NavigateTo (url reason : String)
deriving DecidableEq

/-- AgentMemory; the u32 counters are Nat, the HashSet of suppressed
identities is a list. -/
structure AgentMemory where
  last_action : Option AgentAction
  last_confirmed_action : Option AgentAction
  attempt_count : Nat
  last_signal : Option SemanticSignal
  loop_count : Nat
  think_budget_remaining : Nat
  retry_budget_remaining : Nat
  loop_budget_remaining : Nat
  suppressed_identities : List String
deriving DecidableEq

/-- AgentMemory::default (src/agent/agent_model.rs lines 68-84). -/
def AgentMemory.default : AgentMemory :=
  { last_action := none,
    last_confirmed_action := none,
    think_budget_remaining := MAX_THINK_STEPS,
    retry_budget_remaining := MAX_RETRIES,
    loop_budget_remaining := MAX_LOOP_REPEATS,
    loop_count := 0,
    attempt_count := 0,
    last_signal := none,
    suppressed_identities := [] }

inductive DecisionType
  | Act
  | Wait
  | Stop
deriving DecidableEq

structure ModelDecision where
  decision : DecisionType
  next_action : Option AgentAction
  confidence : ℚ
deriving DecidableEq

/-! ## Budgets (src/agent/budget.rs) -/

inductive BudgetDecision
  | Allow
  | Block (reason : String)

/-- The nested retry condition of check_budgets: last_action present, equal to
the proposal, and retry budget at zero. -/
def retry_exhausted (memory : AgentMemory) (proposed : AgentAction) : Bool :=
  match memory.last_action with
  | some last => decide (last = proposed) && decide (memory.retry_budget_remaining = 0)
  | none => false

/-- check_budgets (src/agent/budget.rs lines 9-28). -/
def check_budgets (memory : AgentMemory) (proposed : AgentAction) : BudgetDecision :=
  if memory.think_budget_remaining = 0 then BudgetDecision.Block "think_budget_exhausted"
  else if retry_exhausted memory proposed then BudgetDecision.Block "retry_budget_exhausted"
  else if memory.loop_budget_remaining = 0 then BudgetDecision.Block "loop_budget_exhausted"
  else BudgetDecision.Allow

/-! ## Budget gate (src/agent/agent.rs, gate_decision lines 539-608)

The Rust function mutates memory in place and returns Option action;
it is modelled as a state-passing function returning the pair
(returned action, memory afterwards). -/

/-- The form id a submit-type proposal targets (the match inside the
terminal-success gate, src/agent/agent.rs lines 546-550). -/
def targets_form : AgentAction → Option String
  | AgentAction.SubmitForm form_id _ _ => some form_id
  | AgentAction.FillAndSubmitForm form_id _ _ => some form_id
  | _ => none

/-- The terminal-success gate condition (src/agent/agent.rs lines 541-561):
the last confirmed action is a FormSubmitted whose form id equals the form
targeted by the proposed submit-type action. -/
def terminal_blocked (decision : ModelDecision) (memory : AgentMemory) : Bool :=
  match memory.last_confirmed_action, decision.next_action with
  | some (AgentAction.FormSubmitted submitted_form), some next_action =>
    match targets_form next_action with
    | some next_form => decide (submitted_form = next_form)
    | none => false
  | _, _ => false

/-- The tail of gate_decision from the budget check onwards
(src/agent/agent.rs lines 584-607), entered with memory already updated by
the loop-detection phase. -/
def gate_budget_phase (memory : AgentMemory) (action : AgentAction) :
    Option AgentAction × AgentMemory :=
  match check_budgets memory action with
  | BudgetDecision.Allow =>
    let m1 := { memory with think_budget_remaining := memory.think_budget_remaining - 1 }
    let m2 :=
      match m1.last_action with
      | some last =>
        if last = action then
          { m1 with retry_budget_remaining := m1.retry_budget_remaining - 1 }
        else { m1 with retry_budget_remaining := MAX_RETRIES }
      | none => { m1 with retry_budget_remaining := MAX_RETRIES }
    (some action, { m2 with last_action := some action })
  | BudgetDecision.Block _ => (none, memory)

/-- gate_decision (src/agent/agent.rs lines 539-608). -/
def gate_decision (decision : ModelDecision) (memory : AgentMemory) :
    Option AgentAction × AgentMemory :=
  if terminal_blocked decision memory then (none, memory)
  else
    match decision.next_action with
    | none => (none, memory)
    | some action =>
      if decision.confidence < MIN_CONFIDENCE then (none, memory)
      else
        match memory.last_action with
        | some prev =>
          if prev = action then
            let m1 := { memory with
              loop_budget_remaining := memory.loop_budget_remaining - 1 }
            if m1.loop_budget_remaining = 0 then (none, m1)
            else gate_budget_phase m1 action
          else gate_budget_phase
            { memory with loop_budget_remaining := MAX_LOOP_REPEATS } action
        | none => gate_budget_phase memory action

/-! ## Agent state machine (src/agent/agent.rs, Agent::step lines 103-177)

The trace logger only performs I/O and is omitted; the policy trait object is
a function argument. -/

structure Agent where
  state : AgentState
  memory : AgentMemory
  step : Nat
deriving DecidableEq

def Agent.stepFn
    (policy : ScreenState → SemanticStateDiff → AgentMemory → Option ModelDecision)
    (self : Agent) (screen : ScreenState) (diff : SemanticStateDiff) :
    Agent × Option AgentAction :=
  let self := { self with step := self.step + 1 }
  match self.state with
  | AgentState.Observe => ({ self with state := AgentState.Evaluate }, none)
  | AgentState.Evaluate =>
    if diff.signals.isEmpty then
      let memory := { self.memory with
        loop_count := self.memory.loop_count + 1,
        loop_budget_remaining := self.memory.loop_budget_remaining - 1 }
      ({ self with memory := memory, state := AgentState.Observe }, none)
    else
      let memory := { self.memory with
        loop_count := 0,
        loop_budget_remaining := 5,
        last_signal := diff.signals.getLast? }
      ({ self with memory := memory, state := AgentState.Think }, none)
  | AgentState.Think =>
    let decision := (policy screen diff self.memory).getD
      { decision := DecisionType.Wait, next_action := none, confidence := 0 }
    match gate_decision decision self.memory with
    | (some action, memory) =>
      ({ self with memory := memory, state := AgentState.Act }, some action)
    | (none, memory) =>
      ({ self with memory := memory, state := AgentState.Observe }, none)
  | AgentState.Act => ({ self with state := AgentState.Observe }, none)
  | AgentState.Stop => (self, none)

/-! ## Deterministic rule-based policy (src/agent/ai_model.rs) -/

/-- guess_value (src/agent/ai_model.rs lines 38-87). -/
def guess_value (label : String) (input_type : Option String) : String :=
  let l := toLowerStr label
  if containsStr l "email" then "user@example.com"
  else if containsStr l "password" then "TestPass123!"
  else if containsStr l "phone" || containsStr l "tel" then "555-0100"
  else if containsStr l "url" || containsStr l "website" then "https://example.com"
  else if containsStr l "zip" || containsStr l "postal" then "90210"
  else if containsStr l "username" || containsStr l "user" then "testuser"
  else if containsStr l "name" then "Jane Doe"
  else if containsStr l "search" || containsStr l "query" then "test query"
  else if containsStr l "date" then "2025-01-15"
  else if containsStr l "number" || containsStr l "amount" || containsStr l "quantity" then "42"
  else
    match input_type with
    | some "email" => "user@example.com"
    | some "password" => "TestPass123!"
    | some "tel" => "555-0100"
    | some "url" => "https://example.com"
    | some "number" => "42"
    | some "date" => "2025-01-15"
    | _ => "test"

/-- DeterministicPolicy::decide (src/agent/ai_model.rs lines 89-165). -/
def deterministic_decide (screen : ScreenState) (diff : SemanticStateDiff)
    (_memory : AgentMemory) : Option ModelDecision :=
  match diff.signals.getLast? with
  | none => none
  | some signal =>
    match signal with
    | SemanticSignal.ScreenLoaded =>
      match screen.forms.head? with
      | none => none
      | some form =>
        let values := form.inputs.map (fun input =>
          let label := (input.label).getD ""
          (label, guess_value label input.input_type))
        let submit_label :=
          ((form.primary_action).or form.actions.head?).bind (fun a => a.label)
        some { decision := DecisionType.Act,
               next_action := some (AgentAction.FillAndSubmitForm form.id values submit_label),
               confidence := mkRat 9 10 }
    | SemanticSignal.FormSubmitted form_id =>
      some { decision := DecisionType.Wait,
             next_action := some (AgentAction.Wait ("Waiting after submitting " ++ form_id)),
             confidence := mkRat 9 10 }
    | SemanticSignal.ResultsAppeared =>
      some { decision := DecisionType.Wait,
             next_action := some (AgentAction.Wait "Results appeared"),
             confidence := mkRat 9 10 }
    | SemanticSignal.NavigationOccurred =>
      some { decision := DecisionType.Wait,
             next_action := some (AgentAction.Wait "Navigation occurred"),
             confidence := mkRat 9 10 }
    | SemanticSignal.ErrorAppeared =>
      some { decision := DecisionType.Wait,
             next_action := some (AgentAction.Wait "Error appeared"),
             confidence := mkRat 9 10 }
    | SemanticSignal.NoOp => none

/-! ## Concrete sample values used by the witnesses -/

def wStEmpty : CanonicalScreenState :=
  { url := "u", title := "t", elements := [], forms := [],
    standalone_actions := [], outputs := [] }

def wForm : CanonicalForm :=
  { id := "search", inputs := ["i1"], actions := ["a1"],
    primary_action := none, intent := none }

def wStBefore : CanonicalScreenState :=
  { url := "u", title := "t", elements := [], forms := [("search", wForm)],
    standalone_actions := [], outputs := [] }

def wStAfterOut : CanonicalScreenState :=
  { url := "u", title := "t", elements := [], forms := [],
    standalone_actions := [], outputs := ["o2"] }

def wElError : CanonicalElement :=
  { id := "o1", kind := ElementKind.Output,
    label := some "Error: bad input", scope := "screen" }

def wElPlain : CanonicalElement :=
  { id := "o2", kind := ElementKind.Output,
    label := some "3 results", scope := "screen" }

def wStErrAfter : CanonicalScreenState :=
  { url := "u", title := "t", elements := [("o1", wElError), ("o2", wElPlain)],
    forms := [], standalone_actions := [], outputs := ["o1", "o2"] }

def wDecisionWait : ModelDecision :=
  { decision := DecisionType.Act, next_action := some (AgentAction.Wait "w"),
    confidence := mkRat 9 10 }

def wDecisionSubmit : ModelDecision :=
  { decision := DecisionType.Act,
    next_action := some (AgentAction.SubmitForm "login" "Submit" none),
    confidence := mkRat 9 10 }

def wDecisionLow : ModelDecision :=
  { decision := DecisionType.Act, next_action := some (AgentAction.Wait "w"),
    confidence := mkRat 1 2 }

def wMemoryLock : AgentMemory :=
  { AgentMemory.default with
    last_confirmed_action := some (AgentAction.FormSubmitted "login") }

def wScreenNoForms : ScreenState :=
  { url := some "u", title := "t", forms := [], standalone_actions := [],
    outputs := [], identities := [] }

def wDiffLoaded : SemanticStateDiff :=
  { forms := { added := [], removed := [], changed := [] },
    standalone_actions := { added := [], removed := [] },
    outputs := { added := [], removed := [] },
    signals := [SemanticSignal.ScreenLoaded] }

def wAgentEval : Agent :=
  { state := AgentState.Evaluate, memory := AgentMemory.default, step := 0 }

/-! ## Helper lemmas -/

lemma mem_sortDedup {x : String} {l : List String} : x ∈ sortDedup l ↔ x ∈ l := by
  unfold sortDedup
  rw [(List.perm_insertionSort _ l.dedup).mem_iff, List.mem_dedup]

lemma filter_not_mem_self (A : List String) :
    A.filter (fun x => decide (x ∉ A)) = [] := by
  rw [List.filter_eq_nil_iff]
  intro a ha
  simp [ha]

lemma diff_sets_self (l : List String) : diff_sets l l = ([], []) := by
  have h : (sortDedup l).filter (fun x => decide (x ∉ l)) = [] := by
    rw [List.filter_eq_nil_iff]
    intro a ha
    simp [mem_sortDedup.mp ha]
  simp only [diff_sets, h]

lemma semantic_diff_forms (b a : CanonicalScreenState) (i : Bool) :
    (semantic_diff b a i).forms = diff_forms b a := by
  simp [semantic_diff]

lemma semantic_diff_outputs (b a : CanonicalScreenState) (i : Bool) :
    (semantic_diff b a i).outputs = diff_outputs b a := by
  simp [semantic_diff]

lemma semantic_diff_signals (b a : CanonicalScreenState) (i : Bool) :
    (semantic_diff b a i).signals =
      derive_signals (diff_forms b a) (diff_actions b a) (diff_outputs b a) b a i := by
  simp [semantic_diff]

lemma derive_signals_submit (F : FormDiff) (A : ActionDiff) (O : OutputDiff)
    (b a : CanonicalScreenState) (hr : F.removed ≠ []) (ho : O.added ≠ []) :
    derive_signals F A O b a false =
      F.removed.map (fun fid => SemanticSignal.FormSubmitted fid) ++
      (if O.added.any (fun id => output_is_error id a) then [SemanticSignal.ErrorAppeared]
       else [SemanticSignal.ResultsAppeared]) := by
  have hr' : F.removed.isEmpty = false := by
    cases h : F.removed.isEmpty
    · rfl
    · exact absurd (List.isEmpty_iff.mp h) hr
  have ho' : O.added.isEmpty = false := by
    cases h : O.added.isEmpty
    · rfl
    · exact absurd (List.isEmpty_iff.mp h) ho
  unfold derive_signals
  cases he : O.added.any (fun id => output_is_error id a) <;>
    simp [hr', ho', he, List.isEmpty_iff, List.map_eq_nil_iff, hr]

lemma errorAppeared_iff (F : FormDiff) (A : ActionDiff) (O : OutputDiff)
    (b a : CanonicalScreenState) :
    SemanticSignal.ErrorAppeared ∈ derive_signals F A O b a false ↔
      O.added.any (fun id => output_is_error id a) = true := by
  unfold derive_signals
  cases he : O.added.any (fun id => output_is_error id a) with
  | false =>
    cases hf : F.removed.isEmpty <;> cases ho : O.added.isEmpty <;>
      simp [he, hf, ho, List.mem_append, List.mem_map]
  | true =>
    have ho : O.added.isEmpty = false := by
      cases h : O.added.isEmpty
      · rfl
      · rw [List.isEmpty_iff.mp h] at he
        simp at he
    cases hf : F.removed.isEmpty <;>
      simp [he, hf, ho, List.mem_append, List.mem_map]

/-! ## Claim theorems -/

/-- C5: for every pair of canonical states, semantic_diff with is_initial=true
produces a signal list equal to exactly [ScreenLoaded], regardless of the
forms, actions and outputs of either state. -/
theorem semantic_diff_initial_screenloaded (b a : CanonicalScreenState) :
    (semantic_diff b a true).signals = [SemanticSignal.ScreenLoaded] := by
  rw [semantic_diff_signals]
  unfold derive_signals
  simp

/-- C6: for every canonical state s, semantic_diff s s false produces a signal
list equal to exactly [NoOp]. -/
theorem semantic_diff_self_noop (s : CanonicalScreenState) :
    (semantic_diff s s false).signals = [SemanticSignal.NoOp] := by
  rw [semantic_diff_signals]
  have hforms : (diff_forms s s).removed = [] := by
    simp only [diff_forms]
    exact filter_not_mem_self _
  have houts : (diff_outputs s s).added = [] := by
    simp only [diff_outputs, diff_sets_self]
  unfold derive_signals
  simp [hforms, houts]

/-- C2: for every pair of canonical states diffed with is_initial=false, if at
least one form id is removed and at least one output id is added, the signal
list contains FormSubmitted for every removed form id and does not contain
NavigationOccurred. -/
theorem semantic_diff_submission_not_navigation (b a : CanonicalScreenState)
    (hr : (semantic_diff b a false).forms.removed ≠ [])
    (ha : (semantic_diff b a false).outputs.added ≠ []) :
    (∀ fid ∈ (semantic_diff b a false).forms.removed,
        SemanticSignal.FormSubmitted fid ∈ (semantic_diff b a false).signals) ∧
      SemanticSignal.NavigationOccurred ∉ (semantic_diff b a false).signals := by
  rw [semantic_diff_forms] at hr
  rw [semantic_diff_outputs] at ha
  rw [semantic_diff_forms, semantic_diff_signals,
    derive_signals_submit (diff_forms b a) (diff_actions b a) (diff_outputs b a) b a hr ha]
  constructor
  · intro fid hfid
    exact List.mem_append_left _ (List.mem_map_of_mem _ hfid)
  · intro hmem
    rcases List.mem_append.mp hmem with h | h
    · rcases List.mem_map.mp h with ⟨fid, _, hEq⟩
      exact SemanticSignal.noConfusion hEq
    · by_cases he :
        (diff_outputs b a).added.any (fun id => output_is_error id a) = true <;>
        simp [he] at h

/-- C2 witness: diffing a state holding only form "search" against a state
holding only a fresh output removes the form and adds an output, so the
signal list carries FormSubmitted "search" and no NavigationOccurred. -/
theorem semantic_diff_submission_not_navigation_witness :
    (semantic_diff wStBefore wStAfterOut false).forms.removed ≠ [] ∧
    (semantic_diff wStBefore wStAfterOut false).outputs.added ≠ [] ∧
    SemanticSignal.FormSubmitted "search" ∈ (semantic_diff wStBefore wStAfterOut false).signals ∧
    SemanticSignal.NavigationOccurred ∉ (semantic_diff wStBefore wStAfterOut false).signals := by
  refine ⟨by decide, by decide, ?_, ?_⟩
  · exact (semantic_diff_submission_not_navigation wStBefore wStAfterOut
      (by decide) (by decide)).1 "search" (by decide)
  · exact (semantic_diff_submission_not_navigation wStBefore wStAfterOut
      (by decide) (by decide)).2

/-- C7: with is_initial=false, if some added output id is classified as an
error by output_is_error in the after-state then ErrorAppeared is in the
signal list (even when other outputs were also added); and if no added output
is an error — in particular when error outputs appear only among the removed
ids — then ErrorAppeared is not emitted. -/
theorem semantic_diff_error_precedence (b a : CanonicalScreenState) :
    ((∃ id ∈ (semantic_diff b a false).outputs.added, output_is_error id a = true) →
        SemanticSignal.ErrorAppeared ∈ (semantic_diff b a false).signals) ∧
    ((∀ id ∈ (semantic_diff b a false).outputs.added, output_is_error id a = false) →
        SemanticSignal.ErrorAppeared ∉ (semantic_diff b a false).signals) := by
  rw [semantic_diff_outputs, semantic_diff_signals]
  constructor
  · intro h
    rw [errorAppeared_iff]
    rw [List.any_eq_true]
    rcases h with ⟨id, hmem, herr⟩
    exact ⟨id, hmem, herr⟩
  · intro h hmem
    rw [errorAppeared_iff] at hmem
    rcases List.any_eq_true.mp hmem with ⟨id, hid, herr⟩
    rw [h id hid] at herr
    exact Bool.false_ne_true herr

/-- C7 witness: an added error output ("Error: bad input") alongside another
added output yields ErrorAppeared; with no outputs added (the error output
only removed), ErrorAppeared is absent. -/
theorem semantic_diff_error_precedence_witness :
    (∃ id ∈ (semantic_diff wStEmpty wStErrAfter false).outputs.added,
        output_is_error id wStErrAfter = true) ∧
    SemanticSignal.ErrorAppeared ∈ (semantic_diff wStEmpty wStErrAfter false).signals ∧
    (∀ id ∈ (semantic_diff wStErrAfter wStEmpty false).outputs.added,
        output_is_error id wStEmpty = false) ∧
    SemanticSignal.ErrorAppeared ∉ (semantic_diff wStErrAfter wStEmpty false).signals := by
  refine ⟨by decide, ?_, by decide, ?_⟩
  · exact (semantic_diff_error_precedence wStEmpty wStErrAfter).1 (by decide)
  · exact (semantic_diff_error_precedence wStErrAfter wStEmpty).2 (by decide)

/-- C1: when memory's last_confirmed_action is FormSubmitted for form id X and
the decision proposes a SubmitForm or FillAndSubmitForm targeting the same
form id X, gate_decision returns None, for all confidence values and all
budget-counter values. -/
theorem gate_decision_terminal_success_lock (d : ModelDecision) (m : AgentMemory)
    (X : String) (a : AgentAction)
    (hm : m.last_confirmed_action = some (AgentAction.FormSubmitted X))
    (hd : d.next_action = some a)
    (ht : targets_form a = some X) :
    (gate_decision d m).1 = none := by
  have hb : terminal_blocked d m = true := by
    unfold terminal_blocked
    rw [hm, hd]
    simp [ht]
  unfold gate_decision
  simp [hb]

/-- C1 witness: with the form "login" confirmed, a high-confidence SubmitForm
"login" proposal against otherwise-full budgets is blocked. -/
theorem gate_decision_terminal_success_lock_witness :
    wMemoryLock.last_confirmed_action = some (AgentAction.FormSubmitted "login") ∧
    wDecisionSubmit.next_action = some (AgentAction.SubmitForm "login" "Submit" none) ∧
    targets_form (AgentAction.SubmitForm "login" "Submit" none) = some "login" ∧
    (gate_decision wDecisionSubmit wMemoryLock).1 = none := by
  refine ⟨by decide, by decide, by decide, ?_⟩
  exact gate_decision_terminal_success_lock wDecisionSubmit wMemoryLock "login"
    (AgentAction.SubmitForm "login" "Submit" none) (by decide) (by decide) (by decide)

/-- C9: whenever gate_decision returns None before reaching loop detection —
terminal-success gate fired, the decision carries no action, or confidence is
below MIN_CONFIDENCE — the memory is returned completely unchanged. -/
theorem gate_decision_early_block_preserves_memory (d : ModelDecision) (m : AgentMemory)
    (h : terminal_blocked d m = true ∨ d.next_action = none ∨
      d.confidence < MIN_CONFIDENCE) :
    gate_decision d m = (none, m) := by
  unfold gate_decision
  rcases h with h | h | h
  · simp [h]
  · cases hb : terminal_blocked d m <;> simp [h]
  · cases hb : terminal_blocked d m
    · cases hn : d.next_action <;> simp [h]
    · simp

/-- C9 witness: a below-threshold decision (confidence one half) leaves the
default memory untouched. -/
theorem gate_decision_early_block_preserves_memory_witness :
    wDecisionLow.confidence < MIN_CONFIDENCE ∧
    gate_decision wDecisionLow AgentMemory.default = (none, AgentMemory.default) := by
  refine ⟨by decide, ?_⟩
  exact gate_decision_early_block_preserves_memory wDecisionLow AgentMemory.default
    (Or.inr (Or.inr (by decide)))

/-- C3: from a default AgentMemory, repeatedly gating the structurally
identical decision (carrying an action, confidence not below MIN_CONFIDENCE)
returns the action on exactly the first two calls — MAX_LOOP_REPEATS — and
None on the third identical call. -/
theorem gate_decision_loop_suppression (d : ModelDecision) (a : AgentAction)
    (hd : d.next_action = some a) (hc : ¬ d.confidence < MIN_CONFIDENCE) :
    (gate_decision d AgentMemory.default).1 = some a ∧
    (gate_decision d (gate_decision d AgentMemory.default).2).1 = some a ∧
    (gate_decision d (gate_decision d
      (gate_decision d AgentMemory.default).2).2).1 = none := by
  have h1 : gate_decision d AgentMemory.default =
      (some a, { AgentMemory.default with
        think_budget_remaining := 4, retry_budget_remaining := MAX_RETRIES,
        last_action := some a }) := by
    unfold gate_decision terminal_blocked gate_budget_phase check_budgets retry_exhausted
    simp [AgentMemory.default, hd, hc, MAX_THINK_STEPS, MAX_RETRIES, MAX_LOOP_REPEATS]
  rw [h1]
  have h2 : gate_decision d { AgentMemory.default with
      think_budget_remaining := 4, retry_budget_remaining := MAX_RETRIES,
      last_action := some a } =
      (some a, { AgentMemory.default with
        think_budget_remaining := 3, retry_budget_remaining := 2,
        loop_budget_remaining := 1, last_action := some a }) := by
    unfold gate_decision terminal_blocked gate_budget_phase check_budgets retry_exhausted
    simp [AgentMemory.default, hd, hc, MAX_THINK_STEPS, MAX_RETRIES, MAX_LOOP_REPEATS]
  rw [h2]
  have h3 : (gate_decision d { AgentMemory.default with
      think_budget_remaining := 3, retry_budget_remaining := 2,
      loop_budget_remaining := 1, last_action := some a }).1 = none := by
    unfold gate_decision terminal_blocked
    simp [AgentMemory.default, hd, hc]
  exact ⟨by simp [h1], by simp [h2], h3⟩

/-- C3 witness: the concrete Wait decision at confidence nine tenths passes
the gate twice from default memory and is suppressed on the third call. -/
theorem gate_decision_loop_suppression_witness :
    (gate_decision wDecisionWait AgentMemory.default).1 = some (AgentAction.Wait "w") ∧
    (gate_decision wDecisionWait (gate_decision wDecisionWait AgentMemory.default).2).1 =
      some (AgentAction.Wait "w") ∧
    (gate_decision wDecisionWait (gate_decision wDecisionWait
      (gate_decision wDecisionWait AgentMemory.default).2).2).1 = none :=
  gate_decision_loop_suppression wDecisionWait (AgentAction.Wait "w") rfl (by decide)

/-- C4: a step taken in the Evaluate state: with an empty signal list it
increments loop_count by one, saturating-decrements loop_budget_remaining,
moves to Observe and returns no action; with a nonempty signal list it zeroes
loop_count, sets loop_budget_remaining to 5 (not the memory-default
MAX_LOOP_REPEATS of 2), stores the last signal, moves to Think and returns no
action. -/
theorem agent_step_evaluate_spec
    (policy : ScreenState → SemanticStateDiff → AgentMemory → Option ModelDecision)
    (ag : Agent) (screen : ScreenState) (diff : SemanticStateDiff)
    (h : ag.state = AgentState.Evaluate) :
    (diff.signals = [] →
        (Agent.stepFn policy ag screen diff).2 = none ∧
        (Agent.stepFn policy ag screen diff).1.state = AgentState.Observe ∧
        (Agent.stepFn policy ag screen diff).1.memory.loop_count =
          ag.memory.loop_count + 1 ∧
        (Agent.stepFn policy ag screen diff).1.memory.loop_budget_remaining =
          ag.memory.loop_budget_remaining - 1) ∧
    (diff.signals ≠ [] →
        (Agent.stepFn policy ag screen diff).2 = none ∧
        (Agent.stepFn policy ag screen diff).1.state = AgentState.Think ∧
        (Agent.stepFn policy ag screen diff).1.memory.loop_count = 0 ∧
        (Agent.stepFn policy ag screen diff).1.memory.loop_budget_remaining = 5 ∧
        (Agent.stepFn policy ag screen diff).1.memory.last_signal =
          diff.signals.getLast?) := by
  constructor
  · intro hs
    have he : diff.signals.isEmpty = true := by simp [hs]
    unfold Agent.stepFn
    simp [h, he]
  · intro hs
    have he : diff.signals.isEmpty = false := by
      cases hh : diff.signals.isEmpty
      · rfl
      · exact absurd (List.isEmpty_iff.mp hh) hs
    unfold Agent.stepFn
    simp [h, he]

/-- C4 witness: a default-memory agent in Evaluate, fed a diff whose signal
list is the singleton [ScreenLoaded], returns no action, moves to Think,
zeroes loop_count, sets loop_budget_remaining to 5 and records ScreenLoaded. -/
theorem agent_step_evaluate_spec_witness :
    (Agent.stepFn (fun _ _ _ => none) wAgentEval wScreenNoForms wDiffLoaded).2 = none ∧
    (Agent.stepFn (fun _ _ _ => none) wAgentEval wScreenNoForms
      wDiffLoaded).1.state = AgentState.Think ∧
    (Agent.stepFn (fun _ _ _ => none) wAgentEval wScreenNoForms
      wDiffLoaded).1.memory.loop_count = 0 ∧
    (Agent.stepFn (fun _ _ _ => none) wAgentEval wScreenNoForms
      wDiffLoaded).1.memory.loop_budget_remaining = 5 ∧
    (Agent.stepFn (fun _ _ _ => none) wAgentEval wScreenNoForms
      wDiffLoaded).1.memory.last_signal = wDiffLoaded.signals.getLast? :=
  (agent_step_evaluate_spec (fun _ _ _ => none) wAgentEval wScreenNoForms wDiffLoaded
    rfl).2 (by decide)

/-- C10: for every screen state with an empty forms list and every diff whose
last signal is ScreenLoaded, DeterministicPolicy::decide returns no decision
at all, rather than an action or a Wait. -/
theorem deterministic_decide_screenloaded_no_forms (screen : ScreenState)
    (diff : SemanticStateDiff) (memory : AgentMemory)
    (hf : screen.forms = [])
    (hs : diff.signals.getLast? = some SemanticSignal.ScreenLoaded) :
    deterministic_decide screen diff memory = none := by
  unfold deterministic_decide
  rw [hs, hf]
  rfl

/-- C10 witness: a formless screen with last signal ScreenLoaded yields no
decision from the deterministic policy. -/
theorem deterministic_decide_screenloaded_no_forms_witness :
    wScreenNoForms.forms = [] ∧
    wDiffLoaded.signals.getLast? = some SemanticSignal.ScreenLoaded ∧
    deterministic_decide wScreenNoForms wDiffLoaded AgentMemory.default = none := by
  refine ⟨by decide, by decide, ?_⟩
  exact deterministic_decide_screenloaded_no_forms wScreenNoForms wDiffLoaded
    AgentMemory.default rfl rfl

/-- C8 counterexample: the claim measures the 60 percent ratio and the
three-character minimum in characters, but the source measures both with Rust
str::len(), the UTF-8 byte length. On the raw text of three euro signs every
character is non-alphabetic (ratio 100 percent in characters, so the claim
demands rejection), yet the code keeps it: the byte length is 9, giving a byte
ratio of one third, and normalize_output_text returns the text. -/
theorem normalize_output_text_chars_counterexample :
    normalize_rejects_chars "€€€" = true ∧
    normalize_output_text "€€€" = some "€€€" := by
  exact ⟨by decide, by decide⟩

/-- C8 amended: normalize_output_text returns None exactly when the trimmed
text is empty, contains a JS-blob marker, has more than 60 percent
non-alphabetic/non-whitespace characters relative to its UTF-8 byte length,
or the whitespace-collapsed lower-cased result is shorter than 3 UTF-8 bytes;
otherwise it returns that collapsed lower-cased text. -/
theorem normalize_output_text_bytes_spec (raw : String) :
    normalize_output_text raw =
      if normalize_rejects_bytes raw then none else some (collapse_lower raw) := by
  unfold normalize_output_text normalize_rejects_bytes collapse_lower collapsedChars
  by_cases h1 : (trimChars raw.data).isEmpty = true <;>
    by_cases h2 : (containsSub (trimChars raw.data) "function(".data ||
        containsSub (trimChars raw.data) "var ".data ||
        containsSub (trimChars raw.data) "window.".data ||
        containsSub (trimChars raw.data) "document.".data) = true <;>
    by_cases h3 : 5 * ((trimChars raw.data).filter
        (fun c => !c.isAlpha && !c.isWhitespace)).length >
        3 * (max (utf8Len (trimChars raw.data)) 1) <;>
    by_cases h4 : utf8Len ((List.intercalate [' ']
        (wordsOf (trimChars raw.data))).map Char.toLower) < 3 <;>
    simp [h1, h2, h3, h4]

end ScreenDet
